import Mathlib

/-!
Shallow embedding of the vital-sign alerting and emergency-escalation
pipeline of the `realtime-messaging` telemedicine backend.

Sources embedded here:
* `src/services/patientMonitoringService.js` — threshold evaluation
  (`checkVitalSignsAlerts` with its `alertThresholds`), trend analysis
  (`calculateTrends`, `calculateBPTrend`, `calculateTempTrend`,
  `determineOverallStatus`) and the ingestion pipeline
  (`recordVitalSigns`, `triggerEmergencyAlert`).
* `src/services/emergencyResponseService.js` — the emergency-case
  operations `acknowledgeAlert`, `resolveAlert`, `escalateAlert`.

Modelling conventions:
* JavaScript numbers are modelled as `ℚ` (the thresholds use decimal
  literals such as `36.1`; no NaN/Infinity arithmetic is exercised by
  the embedded code paths).
* Timestamps (`Date.now()`, `new Date()`) are milliseconds as `ℕ`,
  passed explicitly to each operation as a `now` argument.
* JavaScript truthiness tests on numbers (`if (m.heartRate?.value)`)
  are modelled as "present and nonzero" on an `Option ℚ` field.
* Database reads/writes are explicit state passing; generated ids
  (`uuidv4()`, the `EMRG-...` alert id) are explicit arguments.
* Fire-and-forget side channels (Socket.IO broadcasts, notifications,
  email, device-status updates) have no observable effect on the
  embedded state and are omitted.
-/

/-- One JS alert-threshold band with `min`/`max` bounds
(`{ min: ..., max: ..., critical: { min: ..., max: ... } }`). -/
structure Band where
  min : ℚ
  max : ℚ
deriving DecidableEq

/-- Thresholds for a parameter that has warning and critical bands. -/
structure ParamThresholds where
  min : ℚ
  max : ℚ
  critical : Band
deriving DecidableEq

/-- `bloodPressure` thresholds: separate systolic and diastolic bands. -/
structure BloodPressureThresholds where
  systolic : ParamThresholds
  diastolic : ParamThresholds
deriving DecidableEq

/-- `oxygenSaturation` thresholds: the source has only `min` bounds
(`{ min: 95, critical: { min: 90 } }`). -/
structure OxygenSaturationThresholds where
  min : ℚ
  criticalMin : ℚ
deriving DecidableEq

/-- The `alertThresholds` configuration object built in the
`PatientMonitoringService` constructor. -/
structure AlertThresholds where
  heartRate : ParamThresholds
  bloodPressure : BloodPressureThresholds
  temperature : ParamThresholds
  oxygenSaturation : OxygenSaturationThresholds
  respiratoryRate : ParamThresholds
deriving DecidableEq

/-- `this.alertThresholds` from the `PatientMonitoringService`
constructor, field for field. -/
def alertThresholds : AlertThresholds where
  heartRate := { min := 60, max := 100, critical := { min := 40, max := 150 } }
  bloodPressure :=
    { systolic := { min := 90, max := 140, critical := { min := 70, max := 180 } }
      diastolic := { min := 60, max := 90, critical := { min := 40, max := 120 } } }
  temperature := { min := 36.1, max := 37.2, critical := { min := 35.0, max := 39.0 } }
  oxygenSaturation := { min := 95, criticalMin := 90 }
  respiratoryRate := { min := 12, max := 20, critical := { min := 8, max := 30 } }

/-- A submitted `bloodPressure` measurement (`{ systolic, diastolic }`). -/
structure BloodPressureMeasurement where
  systolic : ℚ
  diastolic : ℚ
deriving DecidableEq

/-- The `measurements` object submitted to the service. Each field is
the parameter's numeric `value`; `none` models an absent key
(units and per-measurement timestamps are carried opaquely by the
source and never read by the embedded logic). -/
structure Measurements where
  heartRate : Option ℚ := none
  bloodPressure : Option BloodPressureMeasurement := none
  temperature : Option ℚ := none
  oxygenSaturation : Option ℚ := none
  respiratoryRate : Option ℚ := none
deriving DecidableEq

/-- The `value` field of an alert object: a plain number, except for
blood pressure where the source stores the template string
`sys/dia` (modelled structurally as the pair). -/
inductive AlertValue where
  | num (v : ℚ)
  | bp (systolic diastolic : ℚ)
deriving DecidableEq

/-- An alert object pushed by `checkVitalSignsAlerts`. -/
structure Alert where
  type : String
  parameter : String
  value : AlertValue
  threshold : Option ℚ := none
  message : String
  severity : String
deriving DecidableEq

/-- Heart-rate branch of `checkVitalSignsAlerts`. The guard
`if (measurements.heartRate?.value)` is JS truthiness: present and
nonzero. -/
def hrAlerts (m : Measurements) : List Alert :=
  match m.heartRate with
  | none => []
  | some hr =>
    if hr ≠ 0 then
      if hr < alertThresholds.heartRate.critical.min ∨
          hr > alertThresholds.heartRate.critical.max then
        [{ type := "critical", parameter := "heartRate", value := .num hr
           threshold := some (if hr < alertThresholds.heartRate.critical.min then
             alertThresholds.heartRate.critical.min else alertThresholds.heartRate.critical.max)
           message := "Critical heart rate: " ++ toString hr ++ " bpm"
           severity := "critical" }]
      else if hr < alertThresholds.heartRate.min ∨ hr > alertThresholds.heartRate.max then
        [{ type := "warning", parameter := "heartRate", value := .num hr
           threshold := some (if hr < alertThresholds.heartRate.min then
             alertThresholds.heartRate.min else alertThresholds.heartRate.max)
           message := "Abnormal heart rate: " ++ toString hr ++ " bpm"
           severity := "medium" }]
      else []
    else []

/-- Blood-pressure branch of `checkVitalSignsAlerts`. The guard
`if (measurements.bloodPressure?.systolic && ...?.diastolic)` requires
both components present and nonzero; only a critical alert is ever
pushed (the source has no warning branch for blood pressure). -/
def bpAlerts (m : Measurements) : List Alert :=
  match m.bloodPressure with
  | none => []
  | some bp =>
    if bp.systolic ≠ 0 ∧ bp.diastolic ≠ 0 then
      if bp.systolic < alertThresholds.bloodPressure.systolic.critical.min ∨
          bp.systolic > alertThresholds.bloodPressure.systolic.critical.max ∨
          bp.diastolic < alertThresholds.bloodPressure.diastolic.critical.min ∨
          bp.diastolic > alertThresholds.bloodPressure.diastolic.critical.max then
        [{ type := "critical", parameter := "bloodPressure"
           value := .bp bp.systolic bp.diastolic
           message := "Critical blood pressure: " ++ toString bp.systolic ++ "/" ++
             toString bp.diastolic ++ " mmHg"
           severity := "critical" }]
      else []
    else []

/-- Temperature branch of `checkVitalSignsAlerts`. -/
def tempAlerts (m : Measurements) : List Alert :=
  match m.temperature with
  | none => []
  | some temp =>
    if temp ≠ 0 then
      if temp < alertThresholds.temperature.critical.min ∨
          temp > alertThresholds.temperature.critical.max then
        [{ type := "critical", parameter := "temperature", value := .num temp
           threshold := some (if temp < alertThresholds.temperature.critical.min then
             alertThresholds.temperature.critical.min else alertThresholds.temperature.critical.max)
           message := "Critical temperature: " ++ toString temp ++ "C"
           severity := "critical" }]
      else if temp < alertThresholds.temperature.min ∨ temp > alertThresholds.temperature.max then
        [{ type := "warning", parameter := "temperature", value := .num temp
           message := "Abnormal temperature: " ++ toString temp ++ "C"
           severity := "medium" }]
      else []
    else []

/-- Oxygen-saturation branch of `checkVitalSignsAlerts` (only lower
bounds exist for this parameter). -/
def spo2Alerts (m : Measurements) : List Alert :=
  match m.oxygenSaturation with
  | none => []
  | some spo2 =>
    if spo2 ≠ 0 then
      if spo2 < alertThresholds.oxygenSaturation.criticalMin then
        [{ type := "critical", parameter := "oxygenSaturation", value := .num spo2
           threshold := some alertThresholds.oxygenSaturation.criticalMin
           message := "Critical oxygen saturation: " ++ toString spo2 ++ "%"
           severity := "critical" }]
      else if spo2 < alertThresholds.oxygenSaturation.min then
        [{ type := "warning", parameter := "oxygenSaturation", value := .num spo2
           message := "Low oxygen saturation: " ++ toString spo2 ++ "%"
           severity := "medium" }]
      else []
    else []

/-- `checkVitalSignsAlerts(measurements)`: the four sequential pushes
into the `alerts` array, in source order. Note that the source never
evaluates `respiratoryRate` even though `alertThresholds` declares
bands for it. -/
def checkVitalSignsAlerts (m : Measurements) : List Alert :=
  hrAlerts m ++ bpAlerts m ++ tempAlerts m ++ spo2Alerts m

example : (checkVitalSignsAlerts { heartRate := some 30 }).length = 1 := by decide
example : checkVitalSignsAlerts { heartRate := some 0 } = [] := by decide
example : checkVitalSignsAlerts { respiratoryRate := some 5 } = [] := by decide
example : checkVitalSignsAlerts { heartRate := some 80 } = [] := by decide
example : (checkVitalSignsAlerts { oxygenSaturation := some (-5) }).length = 1 := by decide

/-- The `trends` object computed by `calculateTrends`. The source also
stores `heartRateVariability` (the `Math.sqrt` of the sample variance,
a floating-point value never read by any embedded code); that field is
omitted from the model. -/
structure Trends where
  overallStatus : String
  bloodPressureTrend : Option String := none
  temperatureTrend : Option String := none
deriving DecidableEq

/-- A persisted `VitalSigns` document, restricted to the fields the
embedded code reads or writes. -/
structure VitalSigns where
  recordId : String
  patient : String
  deviceId : String
  deviceType : String
  measurements : Measurements
  location : Option String := none
  trends : Trends
  alerts : List Alert
  isEmergency : Bool
  emergencyContacted : Bool := false
  createdAt : ℕ
deriving DecidableEq

/-- `calculateBPTrend(bpReadings)`: compares the mean systolic value of
the first 3 readings against the last 3 (`slice(0,3)` / `slice(-3)`;
for lists shorter than 3 the slices are the whole list). -/
def calculateBPTrend (bpReadings : List BloodPressureMeasurement) : String :=
  if bpReadings.length < 2 then "unknown"
  else
    let recent := bpReadings.take 3
    let older := bpReadings.drop (bpReadings.length - 3)
    let recentAvgSys := (recent.map (fun bp => bp.systolic)).sum / (recent.length : ℚ)
    let olderAvgSys := (older.map (fun bp => bp.systolic)).sum / (older.length : ℚ)
    let difference := recentAvgSys - olderAvgSys
    if difference > 10 then "worsening"
    else if difference < -10 then "improving"
    else "stable"

/-- `calculateTempTrend(tempReadings)`: like the blood-pressure trend
with a `0.5` threshold. -/
def calculateTempTrend (tempReadings : List ℚ) : String :=
  if tempReadings.length < 2 then "unknown"
  else
    let recent := tempReadings.take 3
    let older := tempReadings.drop (tempReadings.length - 3)
    let recentAvg := recent.sum / (recent.length : ℚ)
    let olderAvg := older.sum / (older.length : ℚ)
    let difference := recentAvg - olderAvg
    if difference > 0.5 then "worsening"
    else if difference < -0.5 then "improving"
    else "stable"

/-- `determineOverallStatus(recentVitals, currentMeasurements)`. -/
def determineOverallStatus (recentVitals : List VitalSigns)
    (currentMeasurements : Measurements) : String :=
  if recentVitals.any (fun vital => vital.alerts.any (fun a => a.severity == "critical")) then
    "critical"
  else if recentVitals.any (fun vital =>
      vital.alerts.any (fun a => a.severity == "medium" || a.severity == "high")) then
    "concerning"
  else
    let currentAlerts := checkVitalSignsAlerts currentMeasurements
    if currentAlerts.any (fun a => a.severity == "critical") then "critical"
    else if currentAlerts.length > 0 then "concerning"
    else "good"

/-- `calculateTrends(patientId, currentMeasurements)` applied to the
result `recentVitals` of the 24-hour history query. `trends` starts as
`{ overallStatus: 'good' }` and is only refined when more than 2
recent readings exist. The blood-pressure reading filter
(`bp?.systolic && bp?.diastolic`) is JS truthiness (nonzero); the
temperature filter is `temp !== undefined` (zero passes). -/
def calculateTrends (recentVitals : List VitalSigns)
    (currentMeasurements : Measurements) : Trends :=
  if recentVitals.length > 2 then
    let bpReadings := (recentVitals.filterMap (fun v => v.measurements.bloodPressure)).filter
      (fun bp => bp.systolic ≠ 0 ∧ bp.diastolic ≠ 0)
    let tempReadings := recentVitals.filterMap (fun v => v.measurements.temperature)
    { overallStatus := determineOverallStatus recentVitals currentMeasurements
      bloodPressureTrend :=
        if bpReadings.length > 1 then some (calculateBPTrend bpReadings) else none
      temperatureTrend :=
        if tempReadings.length > 1 then some (calculateTempTrend tempReadings) else none }
  else
    { overallStatus := "good" }

/-- The `status` enum of the `EmergencyAlert` mongoose schema. -/
inductive AlertStatus where
  | active
  | acknowledged
  | responding
  | resolved
  | false_alarm
deriving DecidableEq

/-- A case with one of these statuses is open; `resolved` and
`false_alarm` are the terminal statuses (glossary of the design spec,
matching the `getActiveAlerts` query filter). -/
def isOpenStatus : AlertStatus → Bool
  | .active | .acknowledged | .responding => true
  | _ => false

/-- Terminal statuses of the schema enum. -/
def isTerminalStatus : AlertStatus → Bool
  | .resolved | .false_alarm => true
  | _ => false

/-- One entry of `response.acknowledgedBy`. -/
structure Acknowledgment where
  user : String
  acknowledgedAt : ℕ
  response : String
deriving DecidableEq

/-- One entry of the case `timeline` array. -/
structure TimelineEvent where
  timestamp : ℕ
  event : String
  user : Option String := none
  details : Option String := none
  automated : Bool := false
deriving DecidableEq

/-- One `{ timeThreshold, targetLevel }` escalation rule (minutes). -/
structure EscalationRule where
  timeThreshold : ℕ
  targetLevel : ℕ
deriving DecidableEq

/-- The `escalation` subdocument. -/
structure EscalationState where
  level : ℕ := 1
  escalatedAt : List ℕ := []
  escalationRules : List EscalationRule := []
deriving DecidableEq

/-- The `response` subdocument, restricted to the fields the embedded
operations read or write. -/
structure ResponseState where
  acknowledgedBy : List Acknowledgment := []
  assignedTo : Option String := none
  assignedAt : Option ℕ := none
deriving DecidableEq

/-- The `resolution` argument passed to `resolveAlert`. -/
structure ResolutionInput where
  outcome : String
  hospitalTransport : Option String := none
  followUpRequired : Option Bool := none
  followUpInstructions : Option String := none
  notes : Option String := none
deriving DecidableEq

/-- The `resolution` subdocument written by `resolveAlert`. -/
structure Resolution where
  resolvedAt : ℕ
  resolvedBy : String
  outcome : String
  hospitalTransport : Option String := none
  followUpRequired : Option Bool := none
  followUpInstructions : Option String := none
  notes : Option String := none
deriving DecidableEq

/-- The `metrics` subdocument computed by `resolveAlert`. Times are in
seconds (`(t1 - t0) / 1000` on millisecond timestamps). -/
structure Metrics where
  responseTime : Option ℚ
  resolutionTime : ℚ
  escalationCount : ℕ
  communicationsSent : ℕ
  falseAlarm : Bool
deriving DecidableEq

/-- An `EmergencyAlert` document, restricted to the fields the embedded
operations read or write. `communications` entries are reduced to
their message text (only the array length feeds the metrics). -/
structure EmergencyAlert where
  alertId : String
  patient : String
  alertType : String
  severity : String
  priority : String
  status : AlertStatus := .active
  vitalSigns : Option String := none
  description : String
  location : Option String := none
  timeline : List TimelineEvent := []
  response : ResponseState := {}
  escalation : EscalationState := {}
  communications : List String := []
  resolution : Option Resolution := none
  metrics : Option Metrics := none
  createdAt : ℕ
deriving DecidableEq

/-- `addTimelineEvent(alertId, eventData)`: a `$push` of the event with
a fresh timestamp onto the case timeline. -/
def addTimelineEvent (a : EmergencyAlert) (e : TimelineEvent) : EmergencyAlert :=
  { a with timeline := a.timeline ++ [e] }

/-- `acknowledgeAlert(alertId, userId, response)` on the alert found by
`findById`: unconditionally appends the acknowledgment, transitions
`active → acknowledged` on a first acknowledgment, and logs a timeline
event. The empty string models an omitted `response`
(`response || 'Alert acknowledged by responder'`). Timer cancellation
for the assigned primary responder acts on the scheduler only and does
not change the document. -/
def acknowledgeAlertUpdate (a : EmergencyAlert) (userId response : String)
    (now : ℕ) : EmergencyAlert :=
  let a := { a with response :=
    { a.response with acknowledgedBy :=
        a.response.acknowledgedBy ++ [{ user := userId, acknowledgedAt := now, response }] } }
  let a := if a.status = .active then { a with status := .acknowledged } else a
  addTimelineEvent a
    { timestamp := now, event := "Alert acknowledged", user := some userId
      details := some (if response = "" then "Alert acknowledged by responder" else response) }

/-- `acknowledgeAlert` including the `findById` miss
(`throw new Error('Emergency alert not found')`, rethrown with the
`Failed to acknowledge alert` prefix). -/
def acknowledgeAlert (a? : Option EmergencyAlert) (userId response : String)
    (now : ℕ) : Except String EmergencyAlert :=
  match a? with
  | none => .error "Failed to acknowledge alert: Emergency alert not found"
  | some a => .ok (acknowledgeAlertUpdate a userId response now)

/-- `resolveAlert(alertId, userId, resolution)` on the alert found by
`findById`: sets status `resolved`, overwrites the resolution
subdocument, recomputes the metrics, and logs a timeline event. Note
the source performs no terminal-state check before doing so. -/
def resolveAlertUpdate (a : EmergencyAlert) (userId : String)
    (resolution : ResolutionInput) (now : ℕ) : EmergencyAlert :=
  let responseTime : Option ℚ :=
    match a.response.acknowledgedBy with
    | [] => none
    | ack :: _ => some (((ack.acknowledgedAt : ℚ) - (a.createdAt : ℚ)) / 1000)
  let resolutionTime : ℚ := ((now : ℚ) - (a.createdAt : ℚ)) / 1000
  let a := { a with
    status := .resolved
    resolution := some
      { resolvedAt := now, resolvedBy := userId, outcome := resolution.outcome
        hospitalTransport := resolution.hospitalTransport
        followUpRequired := resolution.followUpRequired
        followUpInstructions := resolution.followUpInstructions
        notes := resolution.notes }
    metrics := some
      { responseTime, resolutionTime
        escalationCount := a.escalation.escalatedAt.length
        communicationsSent := a.communications.length
        falseAlarm := resolution.outcome = "false_alarm" } }
  addTimelineEvent a
    { timestamp := now, event := "Alert resolved", user := some userId
      details := some ("Outcome: " ++ resolution.outcome ++ ". " ++ resolution.notes.getD "") }

/-- `resolveAlert` including the `findById` miss. Any found alert is
resolved and reported as a success (`{ success: true, ... }`); there
is no conflict branch. -/
def resolveAlert (a? : Option EmergencyAlert) (userId : String)
    (resolution : ResolutionInput) (now : ℕ) : Except String EmergencyAlert :=
  match a? with
  | none => .error "Failed to resolve alert: Emergency alert not found"
  | some a => .ok (resolveAlertUpdate a userId resolution now)

/-- `escalateAlert(alertId, targetLevel)`, invoked when an escalation
timer fires: if the alert was deleted or already resolved the fire
returns silently with no mutation; otherwise the level is overwritten
with the fired target level, the fire time is appended, and a timeline
event is logged. -/
def escalateAlert (a : EmergencyAlert) (targetLevel : ℕ) (now : ℕ) : EmergencyAlert :=
  if a.status = .resolved then a
  else
    addTimelineEvent
      { a with escalation :=
        { a.escalation with
          level := targetLevel
          escalatedAt := a.escalation.escalatedAt ++ [now] } }
      { timestamp := now
        event := "Alert escalated to level " ++ toString targetLevel
        details := some "Automatic escalation due to no response"
        automated := true }

/-- The persistent state read and written by the ingestion pipeline:
the known patients, the `VitalSigns` collection (in insertion order,
which is ascending `createdAt` order) and the `EmergencyAlert`
collection. -/
structure SysState where
  patients : List String
  vitals : List VitalSigns := []
  emergencyAlerts : List EmergencyAlert := []
deriving DecidableEq

/-- The request body of `recordVitalSigns` (the fields the embedded
logic reads; `metadata` is carried opaquely). -/
structure VitalSignsInput where
  patientId : String
  deviceId : String
  deviceType : String := "manual"
  measurements : Measurements
  location : Option String := none
deriving DecidableEq

/-- The 24-hour history query of `calculateTrends`:
`find({ patient, createdAt: { $gte: now - 24h } }).sort(desc).limit(10)`.
The window predicate `createdAt ≥ now - 86400000` is written without
truncated subtraction; since `vitals` is kept in ascending `createdAt`
order, `reverse` realizes the descending sort. -/
def recentVitalsQuery (st : SysState) (patientId : String) (now : ℕ) : List VitalSigns :=
  ((st.vitals.filter (fun v => v.patient == patientId && now ≤ v.createdAt + 86400000)).reverse).take 10

/-- `triggerEmergencyAlert(vitalSigns, alerts)`: unconditionally builds
and saves a fresh `EmergencyAlert` (schema defaults: status `active`,
escalation level 1) and marks the vital-signs record
`emergencyContacted`. `aid` is the generated `EMRG-...` id. -/
def triggerEmergencyAlert (vs : VitalSigns) (alerts : List Alert) (aid : String)
    (now : ℕ) : EmergencyAlert × VitalSigns :=
  let criticalAlerts := alerts.filter (fun a => a.severity == "critical")
  let e : EmergencyAlert :=
    { alertId := aid
      patient := vs.patient
      alertType := "vital_signs"
      severity := "critical"
      priority := "immediate"
      vitalSigns := some vs.recordId
      description := "Critical vital signs detected: " ++
        String.intercalate ", " (criticalAlerts.map (fun a => a.message))
      location := vs.location
      timeline := [{ timestamp := now
                     event := "Alert triggered by vital signs monitoring"
                     details := some ("Critical values: " ++ String.intercalate ", "
                       (criticalAlerts.map (fun a => a.parameter)))
                     automated := true }]
      createdAt := now }
  (e, { vs with emergencyContacted := true })

/-- The `{ success, data, alerts, emergency }` result of
`recordVitalSigns`. -/
structure RecordResult where
  success : Bool
  data : VitalSigns
  alerts : Option (List Alert)
  emergency : Bool
deriving DecidableEq

/-- `recordVitalSigns(vitalSignsData)`: validates the patient
reference, computes trends over the pre-existing history, classifies
the measurements, persists the record, and — when any alert is
critical — creates an emergency alert via `triggerEmergencyAlert`.
`rid` is the generated `uuidv4()` record id, `aid` the emergency alert
id. Errors are rethrown with the `Failed to record vital signs`
prefix. -/
def recordVitalSigns (st : SysState) (input : VitalSignsInput) (rid aid : String)
    (now : ℕ) : Except String (SysState × RecordResult) :=
  if st.patients.contains input.patientId then
    let trends := calculateTrends (recentVitalsQuery st input.patientId now) input.measurements
    let alerts := checkVitalSignsAlerts input.measurements
    let isEmergency := alerts.any (fun a => a.severity == "critical")
    let vs : VitalSigns :=
      { recordId := rid, patient := input.patientId, deviceId := input.deviceId
        deviceType := input.deviceType, measurements := input.measurements
        location := input.location, trends, alerts, isEmergency, createdAt := now }
    if isEmergency then
      let (e, vs') := triggerEmergencyAlert vs alerts aid now
      .ok ({ st with vitals := st.vitals ++ [vs']
                     emergencyAlerts := st.emergencyAlerts ++ [e] },
           { success := true, data := vs'
             alerts := if alerts.length > 0 then some alerts else none
             emergency := true })
    else
      .ok ({ st with vitals := st.vitals ++ [vs] },
           { success := true, data := vs
             alerts := if alerts.length > 0 then some alerts else none
             emergency := false })
  else
    .error "Failed to record vital signs: Patient not found"

/-- The open cases of one patient (the `getActiveAlerts` status filter
restricted to the patient). -/
def openCasesFor (st : SysState) (patientId : String) : List EmergencyAlert :=
  st.emergencyAlerts.filter (fun e => e.patient == patientId && isOpenStatus e.status)

lemma mem_hrAlerts_param {m : Measurements} {a : Alert} (h : a ∈ hrAlerts m) :
    a.parameter = "heartRate" := by
  unfold hrAlerts at h
  cases hm : m.heartRate with
  | none => rw [hm] at h; simp at h
  | some hr =>
    rw [hm] at h
    simp only [] at h
    split_ifs at h <;> simp_all

lemma mem_bpAlerts_param {m : Measurements} {a : Alert} (h : a ∈ bpAlerts m) :
    a.parameter = "bloodPressure" := by
  unfold bpAlerts at h
  cases hm : m.bloodPressure with
  | none => rw [hm] at h; simp at h
  | some bp =>
    rw [hm] at h
    simp only [] at h
    split_ifs at h <;> simp_all

lemma mem_tempAlerts_param {m : Measurements} {a : Alert} (h : a ∈ tempAlerts m) :
    a.parameter = "temperature" := by
  unfold tempAlerts at h
  cases hm : m.temperature with
  | none => rw [hm] at h; simp at h
  | some temp =>
    rw [hm] at h
    simp only [] at h
    split_ifs at h <;> simp_all

lemma mem_spo2Alerts_param {m : Measurements} {a : Alert} (h : a ∈ spo2Alerts m) :
    a.parameter = "oxygenSaturation" := by
  unfold spo2Alerts at h
  cases hm : m.oxygenSaturation with
  | none => rw [hm] at h; simp at h
  | some spo2 =>
    rw [hm] at h
    simp only [] at h
    split_ifs at h <;> simp_all

lemma hrAlerts_zero {m : Measurements} (h : m.heartRate = some 0) : hrAlerts m = [] := by
  unfold hrAlerts
  rw [h]
  simp

lemma tempAlerts_zero {m : Measurements} (h : m.temperature = some 0) : tempAlerts m = [] := by
  unfold tempAlerts
  rw [h]
  simp

lemma spo2Alerts_zero {m : Measurements} (h : m.oxygenSaturation = some 0) :
    spo2Alerts m = [] := by
  unfold spo2Alerts
  rw [h]
  simp

/-- C4 counterexample: a heart-rate measurement with value `0` is
strictly below the critical minimum of 40 bpm, yet the Threshold
Evaluator reports no alert at all (the JS guard
`if (measurements.heartRate?.value)` treats `0` as falsy), so the
claim "every heart-rate value strictly below 40 yields a critical
alert" fails at value `0`. -/
theorem c4_counterexample :
    (0 : ℚ) < alertThresholds.heartRate.critical.min ∧
    checkVitalSignsAlerts { heartRate := some 0 } = [] := by decide

/-- C4 (amended): for every nonzero heart-rate value strictly below 40
or strictly above 150 bpm, `checkVitalSignsAlerts` reports a
heart-rate alert with severity `critical`; for every value in
`[60, 100]` it reports no heart-rate alert at all. -/
theorem c4_heart_rate_bands (m : Measurements) (v : ℚ) (hm : m.heartRate = some v) :
    (v ≠ 0 → v < 40 ∨ v > 150 →
      ∃ a ∈ checkVitalSignsAlerts m, a.parameter = "heartRate" ∧ a.severity = "critical") ∧
    (60 ≤ v → v ≤ 100 →
      ∀ a ∈ checkVitalSignsAlerts m, a.parameter ≠ "heartRate") := by
  constructor
  · intro hv hcrit
    have hhr : ∃ a, hrAlerts m = [a] ∧ a.parameter = "heartRate" ∧ a.severity = "critical" := by
      unfold hrAlerts
      rw [hm]
      simp only [alertThresholds]
      rw [if_pos hv, if_pos hcrit]
      exact ⟨_, rfl, rfl, rfl⟩
    obtain ⟨a, ha, hp, hs⟩ := hhr
    exact ⟨a, by simp [checkVitalSignsAlerts, ha], hp, hs⟩
  · intro h60 h100 a ha
    have hhr : hrAlerts m = [] := by
      unfold hrAlerts
      rw [hm]
      simp only [alertThresholds]
      rw [if_pos (by intro h0; rw [h0] at h60; norm_num at h60),
        if_neg (by rintro (h | h) <;> linarith), if_neg (by rintro (h | h) <;> linarith)]
    rw [checkVitalSignsAlerts, hhr] at ha
    simp only [List.nil_append, List.mem_append] at ha
    rcases ha with (ha | ha) | ha
    · rw [mem_bpAlerts_param ha]; decide
    · rw [mem_tempAlerts_param ha]; decide
    · rw [mem_spo2Alerts_param ha]; decide

/-- C4 witness: heart rate 30 (nonzero, below 40) yields a critical
heart-rate alert, and heart rate 80 (inside `[60, 100]`) yields no
heart-rate alert. -/
theorem c4_heart_rate_bands_witness :
    (∃ a ∈ checkVitalSignsAlerts { heartRate := some 30 },
      a.parameter = "heartRate" ∧ a.severity = "critical") ∧
    (∀ a ∈ checkVitalSignsAlerts { heartRate := some 80 }, a.parameter ≠ "heartRate") :=
  ⟨(c4_heart_rate_bands { heartRate := some 30 } 30 rfl).1 (by norm_num) (by norm_num),
   (c4_heart_rate_bands { heartRate := some 80 } 80 rfl).2 (by norm_num) (by norm_num)⟩

/-- C5: the Threshold Evaluator never classifies respiratory rate. A
respiratory rate of 5 breaths/min lies strictly below the declared
critical minimum of 8 in `alertThresholds.respiratoryRate`, yet
`checkVitalSignsAlerts` returns no alert: the function has no
respiratory-rate branch even though the constructor declares the
bands. -/
theorem c5_respiratory_rate_never_evaluated :
    checkVitalSignsAlerts { respiratoryRate := some 5 } = [] ∧
    (5 : ℚ) < alertThresholds.respiratoryRate.critical.min := by decide

/-- C8 counterexample: with zero historical readings, `calculateTrends`
returns overall status `good` — not `unknown` — both for a normal
current reading (80 bpm) and for a critical one (30 bpm, which does
produce a critical alert). -/
theorem c8_counterexample :
    (calculateTrends [] { heartRate := some 80 }).overallStatus = "good" ∧
    (calculateTrends [] { heartRate := some 80 }).overallStatus ≠ "unknown" ∧
    (checkVitalSignsAlerts { heartRate := some 30 }).any
      (fun a => a.severity == "critical") = true ∧
    (calculateTrends [] { heartRate := some 30 }).overallStatus = "good" := by decide

/-- C8 (amended): when fewer than 3 historical readings exist in the
24-hour window, the overall status is the initialized default `good`
— regardless of the current reading, even when the current reading is
critical; `determineOverallStatus` is never consulted. -/
theorem c8_few_readings_good (recentVitals : List VitalSigns) (current : Measurements)
    (h : recentVitals.length < 3) :
    (calculateTrends recentVitals current).overallStatus = "good" := by
  unfold calculateTrends
  rw [if_neg (by omega)]

/-- C8 witness: the empty history with a critical current reading. -/
theorem c8_few_readings_good_witness :
    (calculateTrends [] { heartRate := some 30 }).overallStatus = "good" :=
  c8_few_readings_good [] { heartRate := some 30 } (by decide)

/-- C10: a submitted value of `0` for heart rate, temperature, or
oxygen saturation produces no alert for that parameter, because the
JS truthiness guards (`if (measurements.X?.value)`) treat `0` exactly
like an absent measurement. -/
theorem c10_zero_treated_as_absent (m : Measurements) :
    (m.heartRate = some 0 → ∀ a ∈ checkVitalSignsAlerts m, a.parameter ≠ "heartRate") ∧
    (m.temperature = some 0 → ∀ a ∈ checkVitalSignsAlerts m, a.parameter ≠ "temperature") ∧
    (m.oxygenSaturation = some 0 →
      ∀ a ∈ checkVitalSignsAlerts m, a.parameter ≠ "oxygenSaturation") := by
  refine ⟨fun h a ha => ?_, fun h a ha => ?_, fun h a ha => ?_⟩ <;>
    rw [checkVitalSignsAlerts] at ha <;> simp only [List.mem_append] at ha
  · rcases ha with ((ha | ha) | ha) | ha
    · rw [hrAlerts_zero h] at ha; simp at ha
    · rw [mem_bpAlerts_param ha]; decide
    · rw [mem_tempAlerts_param ha]; decide
    · rw [mem_spo2Alerts_param ha]; decide
  · rcases ha with ((ha | ha) | ha) | ha
    · rw [mem_hrAlerts_param ha]; decide
    · rw [mem_bpAlerts_param ha]; decide
    · rw [tempAlerts_zero h] at ha; simp at ha
    · rw [mem_spo2Alerts_param ha]; decide
  · rcases ha with ((ha | ha) | ha) | ha
    · rw [mem_hrAlerts_param ha]; decide
    · rw [mem_bpAlerts_param ha]; decide
    · rw [mem_tempAlerts_param ha]; decide
    · rw [spo2Alerts_zero h] at ha; simp at ha

/-- C10 witness: all three parameters submitted as `0` at once. -/
theorem c10_zero_treated_as_absent_witness :
    (∀ a ∈ checkVitalSignsAlerts
        { heartRate := some 0, temperature := some 0, oxygenSaturation := some 0 },
      a.parameter ≠ "heartRate") ∧
    (∀ a ∈ checkVitalSignsAlerts
        { heartRate := some 0, temperature := some 0, oxygenSaturation := some 0 },
      a.parameter ≠ "temperature") ∧
    (∀ a ∈ checkVitalSignsAlerts
        { heartRate := some 0, temperature := some 0, oxygenSaturation := some 0 },
      a.parameter ≠ "oxygenSaturation") :=
  ⟨(c10_zero_treated_as_absent _).1 rfl, (c10_zero_treated_as_absent _).2.1 rfl,
   (c10_zero_treated_as_absent _).2.2 rfl⟩

/-- C2 fixture: a fresh manual emergency case created at time 0. -/
def c2Alert0 : EmergencyAlert :=
  { alertId := "EMRG-2", patient := "patient-2", alertType := "manual"
    severity := "critical", priority := "immediate", description := "chest pain"
    createdAt := 0 }

/-- C2 fixture: the resolution payload of both resolve calls. -/
def c2Resolution : ResolutionInput := { outcome := "patient_stable" }

/-- C2 fixture: the case after the first resolution at t = 100 s. -/
def c2First : EmergencyAlert := resolveAlertUpdate c2Alert0 "user-1" c2Resolution 100000

/-- C2 counterexample: after a first resolution with
`resolutionTime = 100` s, a second `resolveAlert` call at t = 200 s
does not return any conflict error — it succeeds and overwrites the
metrics, changing `resolutionTime` from 100 to 200 (and the resolution
metadata with it). No `StateConflictError` exists in the source. -/
theorem c2_counterexample :
    c2First.status = .resolved ∧
    c2First.metrics.map (fun mt => mt.resolutionTime) = some 100 ∧
    (resolveAlert (some c2First) "user-2" c2Resolution 200000).toOption =
      some (resolveAlertUpdate c2First "user-2" c2Resolution 200000) ∧
    (resolveAlertUpdate c2First "user-2" c2Resolution 200000).metrics.map
      (fun mt => mt.resolutionTime) = some 200 ∧
    (resolveAlertUpdate c2First "user-2" c2Resolution 200000).resolution.map
      (fun r => r.resolvedAt) = some 200000 := by
  refine ⟨rfl, ?_, rfl, ?_, rfl⟩
  · norm_num [c2First, c2Alert0, c2Resolution, resolveAlertUpdate, addTimelineEvent]
  · norm_num [c2First, c2Alert0, c2Resolution, resolveAlertUpdate, addTimelineEvent]

/-- C2 (amended): calling resolve on an already-resolved case is not
rejected: `resolveAlert` succeeds again, keeps status `resolved`,
overwrites the resolution metadata with the second caller and time,
and recomputes `resolutionTime` and `escalationCount` as of the second
call. -/
theorem c2_second_resolve_overwrites (a : EmergencyAlert) (userId : String)
    (res : ResolutionInput) (now : ℕ) (h : a.status = .resolved) :
    resolveAlert (some a) userId res now = .ok (resolveAlertUpdate a userId res now) ∧
    (resolveAlertUpdate a userId res now).status = .resolved ∧
    (resolveAlertUpdate a userId res now).resolution = some
      { resolvedAt := now, resolvedBy := userId, outcome := res.outcome
        hospitalTransport := res.hospitalTransport
        followUpRequired := res.followUpRequired
        followUpInstructions := res.followUpInstructions
        notes := res.notes } ∧
    (resolveAlertUpdate a userId res now).metrics.map (fun mt => mt.resolutionTime) =
      some (((now : ℚ) - (a.createdAt : ℚ)) / 1000) ∧
    (resolveAlertUpdate a userId res now).metrics.map (fun mt => mt.escalationCount) =
      some a.escalation.escalatedAt.length :=
  ⟨rfl, rfl, rfl, rfl, rfl⟩

/-- C2 witness: the amended behavior at the concrete already-resolved
case of the counterexample. -/
theorem c2_second_resolve_overwrites_witness :
    resolveAlert (some c2First) "user-2" c2Resolution 200000 =
      .ok (resolveAlertUpdate c2First "user-2" c2Resolution 200000) ∧
    (resolveAlertUpdate c2First "user-2" c2Resolution 200000).status = .resolved ∧
    (resolveAlertUpdate c2First "user-2" c2Resolution 200000).resolution = some
      { resolvedAt := 200000, resolvedBy := "user-2", outcome := c2Resolution.outcome
        hospitalTransport := c2Resolution.hospitalTransport
        followUpRequired := c2Resolution.followUpRequired
        followUpInstructions := c2Resolution.followUpInstructions
        notes := c2Resolution.notes } ∧
    (resolveAlertUpdate c2First "user-2" c2Resolution 200000).metrics.map
      (fun mt => mt.resolutionTime) = some (((200000 : ℚ) - (c2First.createdAt : ℚ)) / 1000) ∧
    (resolveAlertUpdate c2First "user-2" c2Resolution 200000).metrics.map
      (fun mt => mt.escalationCount) = some c2First.escalation.escalatedAt.length :=
  c2_second_resolve_overwrites c2First "user-2" c2Resolution 200000 (by decide)

/-- C3 fixture: an open case already escalated to level 5. -/
def c3Alert : EmergencyAlert :=
  { alertId := "EMRG-3", patient := "patient-3", alertType := "manual"
    severity := "critical", priority := "immediate", description := "fall"
    escalation := { level := 5, escalatedAt := [300000, 900000] }
    createdAt := 0 }

/-- C3 counterexample: on a case at escalation level 5, a late fire of
the level-2 timer lowers the level to 2: `escalateAlert` assigns the
fired target level unconditionally instead of taking the maximum, so
the level is not monotonically non-decreasing under out-of-order
fires. -/
theorem c3_counterexample :
    c3Alert.status = .active ∧
    c3Alert.escalation.level = 5 ∧
    (escalateAlert c3Alert 2 1000000).escalation.level = 2 ∧
    (escalateAlert c3Alert 2 1000000).escalation.level < c3Alert.escalation.level := by decide

/-- C3 (amended): when an escalation timer fires on a non-resolved
case, `escalateAlert` sets the level to the fired target level
unconditionally — not to the maximum of the current and fired levels —
and appends the fire time; the level is non-decreasing only when
timers happen to fire in increasing target-level order. -/
theorem c3_escalate_overwrites_level (a : EmergencyAlert) (targetLevel now : ℕ)
    (h : a.status ≠ .resolved) :
    (escalateAlert a targetLevel now).escalation.level = targetLevel ∧
    (escalateAlert a targetLevel now).escalation.escalatedAt =
      a.escalation.escalatedAt ++ [now] := by
  unfold escalateAlert
  rw [if_neg h]
  exact ⟨rfl, rfl⟩

/-- C3 witness: the late level-2 fire on the level-5 case. -/
theorem c3_escalate_overwrites_level_witness :
    (escalateAlert c3Alert 2 1000000).escalation.level = 2 ∧
    (escalateAlert c3Alert 2 1000000).escalation.escalatedAt =
      c3Alert.escalation.escalatedAt ++ [1000000] :=
  c3_escalate_overwrites_level c3Alert 2 1000000 (by decide)

/-- The emergency-case documents reachable through the embedded
service operations, starting from any freshly created case (both
`createEmergencyAlert` and `triggerEmergencyAlert` create cases with
the schema default status `active`). -/
inductive ReachableAlert : EmergencyAlert → Prop where
  | created (a : EmergencyAlert) (h : a.status = .active) : ReachableAlert a
  | acked (a : EmergencyAlert) (userId response : String) (now : ℕ)
      (ha : ReachableAlert a) :
      ReachableAlert (acknowledgeAlertUpdate a userId response now)
  | resolvedStep (a : EmergencyAlert) (userId : String) (res : ResolutionInput) (now : ℕ)
      (ha : ReachableAlert a) :
      ReachableAlert (resolveAlertUpdate a userId res now)
  | escalated (a : EmergencyAlert) (targetLevel now : ℕ) (ha : ReachableAlert a) :
      ReachableAlert (escalateAlert a targetLevel now)
  | assigned (a : EmergencyAlert) (responderId : String) (now : ℕ)
      (ha : ReachableAlert a) :
      ReachableAlert { a with response :=
        { a.response with assignedTo := some responderId, assignedAt := some now } }

/-- No embedded operation ever produces the statuses `responding` or
`false_alarm`: every reachable case is `active`, `acknowledged`, or
`resolved` (`resolveAlert` writes `resolved` even for a false-alarm
outcome, recording it only in `metrics.falseAlarm`). -/
lemma reachable_status {a : EmergencyAlert} (h : ReachableAlert a) :
    a.status = .active ∨ a.status = .acknowledged ∨ a.status = .resolved := by
  induction h with
  | created a h => exact .inl h
  | acked a userId response now ha ih =>
    rcases ih with h | h | h <;>
      simp [acknowledgeAlertUpdate, addTimelineEvent, h]
  | resolvedStep a userId res now ha ih =>
    simp [resolveAlertUpdate, addTimelineEvent]
  | escalated a targetLevel now ha ih =>
    unfold escalateAlert
    split_ifs with hs
    · exact ih
    · simpa [addTimelineEvent] using ih
  | assigned a responderId now ha ih => simpa using ih

/-- C7: an escalation timer that fires after its case has reached a
terminal status is dropped silently — `escalateAlert` re-checks the
status and returns the case completely unchanged (no level change, no
`escalatedAt` entry, no timeline event). The only terminal status any
reachable case can carry is `resolved`, which the re-check covers. -/
theorem c7_late_escalation_dropped (a : EmergencyAlert) (targetLevel now : ℕ)
    (hr : ReachableAlert a) (ht : isTerminalStatus a.status = true) :
    escalateAlert a targetLevel now = a := by
  have hres : a.status = .resolved := by
    rcases reachable_status hr with h | h | h
    · rw [h] at ht; simp [isTerminalStatus] at ht
    · rw [h] at ht; simp [isTerminalStatus] at ht
    · exact h
  unfold escalateAlert
  rw [if_pos hres]

/-- C7 fixture: a fresh case created at t = 0. -/
def c7Base : EmergencyAlert :=
  { alertId := "EMRG-7", patient := "patient-7", alertType := "panic_button"
    severity := "high", priority := "urgent", description := "panic"
    createdAt := 0 }

/-- C7 fixture: the case after resolution at t = 60 s. -/
def c7Resolved : EmergencyAlert :=
  resolveAlertUpdate c7Base "user-7" { outcome := "false_alarm" } 60000

/-- C7 witness: the level-3 timer firing one second after the case was
resolved leaves the case untouched. -/
theorem c7_late_escalation_dropped_witness :
    escalateAlert c7Resolved 3 61000 = c7Resolved :=
  c7_late_escalation_dropped c7Resolved 3 61000
    (ReachableAlert.resolvedStep c7Base "user-7" { outcome := "false_alarm" } 60000
      (ReachableAlert.created c7Base rfl))
    (by decide)

/-- C1 fixture: an existing open (status `active`) emergency case for
patient 1. -/
def c1OpenCase : EmergencyAlert :=
  { alertId := "EMRG-0", patient := "patient-1", alertType := "vital_signs"
    severity := "critical", priority := "immediate"
    description := "Critical vital signs detected: earlier episode"
    createdAt := 0 }

/-- C1 fixture: the store state with that single open case. -/
def c1State : SysState :=
  { patients := ["patient-1"], emergencyAlerts := [c1OpenCase] }

/-- C1 fixture: a new critical measurement (heart rate 30 bpm) for the
same patient. -/
def c1Input : VitalSignsInput :=
  { patientId := "patient-1", deviceId := "device-1"
    measurements := { heartRate := some 30 } }

/-- C1 counterexample: patient 1 already has one open case; recording
another critical measurement creates a second case instead of
attaching to the first, leaving the patient with two open cases —
`triggerEmergencyAlert` performs no open-case lookup. -/
theorem c1_counterexample :
    (openCasesFor c1State "patient-1").length = 1 ∧
    (recordVitalSigns c1State c1Input "rec-1" "EMRG-1" 60000).toOption.map
      (fun p => (openCasesFor p.1 "patient-1").length) = some 2 := by decide

/-- C1 (amended): every successfully recorded measurement set
containing a critical alert creates a fresh `EmergencyCase` with
status `active` for the patient, appended to the existing cases —
regardless of whether the patient already has an open case; no attach
path exists. -/
theorem c1_critical_always_creates_case (st : SysState) (input : VitalSignsInput)
    (rid aid : String) (now : ℕ)
    (hp : st.patients.contains input.patientId = true)
    (hc : (checkVitalSignsAlerts input.measurements).any
      (fun a => a.severity == "critical") = true) :
    ∃ st' r e, recordVitalSigns st input rid aid now = .ok (st', r) ∧
      st'.emergencyAlerts = st.emergencyAlerts ++ [e] ∧
      e.patient = input.patientId ∧ e.status = .active := by
  simp only [recordVitalSigns, hp, hc, if_true, triggerEmergencyAlert]
  exact ⟨_, _, _, rfl, rfl, rfl, rfl⟩

/-- C1 witness: the amended behavior at the concrete duplicate-case
state of the counterexample. -/
theorem c1_critical_always_creates_case_witness :
    ∃ st' r e, recordVitalSigns c1State c1Input "rec-1" "EMRG-1" 60000 = .ok (st', r) ∧
      st'.emergencyAlerts = c1State.emergencyAlerts ++ [e] ∧
      e.patient = c1Input.patientId ∧ e.status = .active :=
  c1_critical_always_creates_case c1State c1Input "rec-1" "EMRG-1" 60000
    (by decide) (by decide)

/-- C6 fixture: a known patient with empty history. -/
def c6State : SysState := { patients := ["patient-6"] }

/-- C6 fixture: a submission with oxygen saturation −5 percent. -/
def c6Input : VitalSignsInput :=
  { patientId := "patient-6", deviceId := "device-6"
    measurements := { oxygenSaturation := some (-5) } }

/-- C6: submitting oxygen saturation −5 does not fail with any
validation error — `recordVitalSigns` performs no range validation.
The value is classified as a critical alert (−5 < 90), the
measurement record is persisted, and an `EmergencyCase` is created:
the call succeeds with `emergency: true`. -/
theorem c6_out_of_range_accepted :
    (recordVitalSigns c6State c6Input "rec-6" "EMRG-6" 1000).toOption.map
      (fun p => (p.1.vitals.length, (openCasesFor p.1 "patient-6").length,
        p.2.emergency, p.2.success)) = some (1, 1, true, true) ∧
    (checkVitalSignsAlerts c6Input.measurements).any
      (fun a => a.severity == "critical") = true := by decide

/-- C9: when the classification of a measurement set contains no
critical alert, `recordVitalSigns` succeeds without creating or
touching any emergency case (the store's case list is unchanged), and
the computed alerts — warnings included — are still returned to the
caller. -/
theorem c9_warning_only_no_case (st : SysState) (input : VitalSignsInput)
    (rid aid : String) (now : ℕ)
    (hp : st.patients.contains input.patientId = true)
    (hw : (checkVitalSignsAlerts input.measurements).any
      (fun a => a.severity == "critical") = false) :
    ∃ st' r, recordVitalSigns st input rid aid now = .ok (st', r) ∧
      st'.emergencyAlerts = st.emergencyAlerts ∧
      r.emergency = false ∧
      r.alerts = (if (checkVitalSignsAlerts input.measurements).length > 0
        then some (checkVitalSignsAlerts input.measurements) else none) := by
  simp only [recordVitalSigns, hp, hw, if_true, Bool.false_eq_true, if_false]
  exact ⟨_, _, rfl, rfl, rfl, rfl⟩

/-- C9 witness: heart rate 50 bpm produces exactly one warning alert,
no case, and the alert is returned. -/
theorem c9_warning_only_no_case_witness :
    ∃ st' r, recordVitalSigns c1State
        { patientId := "patient-1", deviceId := "device-1"
          measurements := { heartRate := some 50 } } "rec-9" "EMRG-9" 60000 = .ok (st', r) ∧
      st'.emergencyAlerts = c1State.emergencyAlerts ∧
      r.emergency = false ∧
      r.alerts = (if (checkVitalSignsAlerts { heartRate := some 50 }).length > 0
        then some (checkVitalSignsAlerts { heartRate := some 50 }) else none) :=
  c9_warning_only_no_case c1State
    { patientId := "patient-1", deviceId := "device-1"
      measurements := { heartRate := some 50 } } "rec-9" "EMRG-9" 60000
    (by decide) (by decide)
